import Mathlib

/-!
Verification of the geospatial assignment and equity-analytics core of the
`openstadt` repository, shallowly embedded in Lean 4.

Coordinates and all exact arithmetic are modelled over `ℚ` (Python floats
idealised as exact rationals); the haversine distance, which uses
transcendental functions, is modelled over `ℝ`.  Python's banker's rounding
`round` is modelled by `pyRound`/`pyRound1`.  Python `dict`s (which preserve
insertion order and replace in place) are modelled as ordered association
lists, and Python's stable `list.sort(key=...)` as a stable insertion sort.
-/

set_option maxRecDepth 4000

attribute [local semireducible] Rat.add Rat.sub Rat.mul Rat.inv Rat.ofScientific

/-- A GeoJSON geometry value as stored on a district: a `type` tag and a list
of rings of `[lng, lat]` pairs (from `src/openstadt/api/models.py`,
`District.geometry`). -/
structure Geometry where
  type : String
  coordinates : List (List (ℚ × ℚ))
deriving DecidableEq, Repr

/-- A district record (from `src/openstadt/api/models.py`, class `District`). -/
structure District where
  name : String
  slug : String
  geometry : Option Geometry
  population : Option ℤ
  area_km2 : Option ℚ
deriving DecidableEq, Repr

/-- A point of interest (from `src/openstadt/api/models.py`, class `POI`). -/
structure POI where
  id : ℕ
  city_id : ℕ
  layer_id : ℕ
  name : String
  lat : ℚ
  lng : ℚ
  address : Option String
  district : Option String
  attributes : List (String × String)
deriving DecidableEq, Repr

/-- A layer record (from `src/openstadt/api/models.py`, class `Layer`);
only the fields the analytics code reads. -/
structure Layer where
  id : ℕ
  slug : String
  name : String
deriving DecidableEq, Repr

/-- Python 3 `round(q)`: round half to even (banker's rounding). -/
def pyRound (q : ℚ) : ℤ :=
  let f : ℤ := ⌊q⌋
  let r : ℚ := q - (f : ℚ)
  if r < 1/2 then f
  else if 1/2 < r then f + 1
  else if f % 2 = 0 then f else f + 1

/-- Python 3 `round(q, 1)`: one decimal digit, half to even. -/
def pyRound1 (q : ℚ) : ℚ := (pyRound (q * 10) : ℚ) / 10

/-- The crossing test of one ray-casting loop iteration in
`_point_in_polygon` (`src/openstadt/commands.py` line 657):
`((yi > y) != (yj > y)) and (x < (xj - xi) * (y - yi) / (yj - yi) + xi)`. -/
def crossing (x y xi yi xj yj : ℚ) : Bool :=
  (decide (yi > y) != decide (yj > y)) &&
    decide (x < (xj - xi) * (y - yi) / (yj - yi) + xi)

/-- The ray-casting loop of `_point_in_polygon`: fold over the edge list,
toggling `inside` at each counted crossing. -/
def rayLoop (x y : ℚ) : List ((ℚ × ℚ) × (ℚ × ℚ)) → Bool → Bool
  | [], inside => inside
  | e :: rest, inside =>
      rayLoop x y rest
        (if crossing x y e.1.1 e.1.2 e.2.1 e.2.2 then !inside else inside)

/-- The edge pairing of the source loop: `j` starts at `n - 1` and trails `i`,
so vertex `i` is paired with its predecessor (`n - 1` for `i = 0`). -/
def edgePairs (coords : List (ℚ × ℚ)) : List ((ℚ × ℚ) × (ℚ × ℚ)) :=
  (List.range coords.length).map (fun i =>
    (coords.getD i (0, 0),
     coords.getD (if i = 0 then coords.length - 1 else i - 1) (0, 0)))

/-- The ring-level part of `_point_in_polygon` (`src/openstadt/commands.py`
lines 645-661): fewer than 3 vertices is `false`, otherwise run the
ray-casting loop with `inside = False`. -/
def pipRing (x y : ℚ) (coords : List (ℚ × ℚ)) : Bool :=
  if coords.length < 3 then false
  else rayLoop x y (edgePairs coords) false

/-- `_point_in_polygon(x, y, geometry)` (`src/openstadt/commands.py` lines
640-661).  A missing geometry or a non-`"Polygon"` type returns `false`;
otherwise the first ring is tested (`coords = geometry.get("coordinates",
[[]])[0]`; an absent first ring is modelled as the empty ring, which fails
the `< 3` vertex check). -/
def point_in_polygon (x y : ℚ) (geometry : Option Geometry) : Bool :=
  match geometry with
  | none => false
  | some g =>
      if g.type != "Polygon" then false
      else pipRing x y (g.coordinates.headD [])

/-- The candidate filter of `assign_districts` (`src/openstadt/commands.py`
lines 618-620): only districts whose `geometry` is not null are candidates. -/
def candidates (districts : List District) : List District :=
  districts.filter (fun d => d.geometry.isSome)

/-- The inner loop of `assign_districts` (`src/openstadt/commands.py` lines
630-633) for one POI: the first candidate district whose polygon contains the
point wins and its display `name` overwrites the POI's `district` label; if
none contains it the POI is returned unchanged. -/
def assignPoi (ds : List District) (p : POI) : POI :=
  match ds.find? (fun d => point_in_polygon p.lng p.lat d.geometry) with
  | some d => { p with district := some d.name }
  | none => p

/-- `assign_districts` (`src/openstadt/commands.py` lines 606-637) on the
in-memory data: maps every POI through the first-match assignment over the
candidate districts, and returns the `assigned` counter (number of POIs for
which some candidate polygon contained the point). -/
def assign_districts (districts : List District) (pois : List POI) :
    List POI × ℕ :=
  let ds := candidates districts
  (pois.map (assignPoi ds),
   pois.countP (fun p =>
     (ds.find? (fun d => point_in_polygon p.lng p.lat d.geometry)).isSome))

/-- Insert `x` into `l` before the first element with a strictly larger key:
a stable insertion, modelling one step of Python's stable `list.sort`. -/
def insertByKey {α : Type} (key : α → ℤ) (x : α) : List α → List α
  | [] => [x]
  | y :: ys => if key x < key y then x :: y :: ys else y :: insertByKey key x ys

/-- Stable sort by an integer key, modelling Python's `list.sort(key=...)`. -/
def sortByKey {α : Type} (key : α → ℤ) : List α → List α
  | [] => []
  | x :: xs => insertByKey key x (sortByKey key xs)

/-- Python `dict[k] = v` on an insertion-ordered dict: replace in place when
the key exists, else append. -/
def dictSet {V : Type} (l : List (String × V)) (k : String) (v : V) :
    List (String × V) :=
  if l.any (fun kv => kv.1 == k) then
    l.map (fun kv => if kv.1 == k then (k, v) else kv)
  else l ++ [(k, v)]

/-- Mutate the value stored under key `k` in place (Python
`dict[k] = f(dict[k])`; a no-op when the key is absent, which the source
never does). -/
def dictUpdate {V : Type} (l : List (String × V)) (k : String) (f : V → V) :
    List (String × V) :=
  l.map (fun kv => if kv.1 == k then (kv.1, f kv.2) else kv)

/-- One accumulator entry of `district_stats` in `district_analytics`
(`src/openstadt/api/routes.py` lines 243-269). -/
structure DStats where
  name : String
  slug : String
  population : Option ℤ
  areaKm2 : Option ℚ
  layers : List (String × ℕ)
  total : ℕ
deriving DecidableEq, Repr

/-- One element of the `results` list of `district_analytics`
(`src/openstadt/api/routes.py` lines 288-292): the accumulated stats plus the
derived `equityScore` and `density`. -/
structure DItem extends DStats where
  equityScore : ℤ
  density : Option ℚ
deriving DecidableEq, Repr

/-- The seed entry for a district from the database
(`src/openstadt/api/routes.py` lines 243-251). -/
def seedStats (ls : List Layer) (d : District) : DStats :=
  { name := d.name, slug := d.slug, population := d.population,
    areaKm2 := d.area_km2, layers := ls.map (fun l => (l.slug, 0)), total := 0 }

/-- The seed entry for a district label only present on POIs
(`src/openstadt/api/routes.py` lines 256-264). -/
def unknownSeed (ls : List Layer) (dname : String) : DStats :=
  { name := dname, slug := (dname.toLower).replace " " "-", population := none,
    areaKm2 := none, layers := ls.map (fun l => (l.slug, 0)), total := 0 }

/-- Increment a stats entry for one POI of layer slug `slug`
(`src/openstadt/api/routes.py` lines 268-269). -/
def bumpLayer (slug : String) (s : DStats) : DStats :=
  { s with layers := dictUpdate s.layers slug (· + 1), total := s.total + 1 }

/-- First half of the per-POI step of the `district_stats` accumulation loop
(`src/openstadt/api/routes.py` lines 255-264): group under the POI's district
label (`"Unbekannt"` when absent) and create a fresh entry when the label is
new. -/
def statAcc1 (ls : List Layer) (acc : List (String × DStats))
    (dname : String) : List (String × DStats) :=
  if acc.any (fun kv => kv.1 == dname) then acc
  else acc ++ [(dname, unknownSeed ls dname)]

/-- The per-POI step of the `district_stats` accumulation loop, continued:
after ensuring the entry exists, `layers.get(poi.layer_id)` decides whether
the POI is counted. -/
def statStep (ls : List Layer) (acc : List (String × DStats)) (p : POI) :
    List (String × DStats) :=
  let dname := p.district.getD "Unbekannt"
  match ls.find? (fun l => l.id == p.layer_id) with
  | some l => dictUpdate (statAcc1 ls acc dname) dname (bumpLayer l.slug)
  | none => statAcc1 ls acc dname

/-- The full `district_stats` dict of `district_analytics`
(`src/openstadt/api/routes.py` lines 240-269): seed every database district,
then fold over the city's POIs. -/
def districtStatsDict (ds : List District) (ls : List Layer) (ps : List POI) :
    List (String × DStats) :=
  ps.foldl (statStep ls)
    (ds.foldl (fun acc d => dictSet acc d.name (seedStats ls d)) [])

/-- `city_total = sum(d["total"] for d in district_stats.values())`
(`src/openstadt/api/routes.py` line 273). -/
def cityTotalOf (dict : List (String × DStats)) : ℕ :=
  (dict.map (fun kv => kv.2.total)).sum

/-- `city_avg = city_total / len(district_stats) if district_stats else 0`
(`src/openstadt/api/routes.py` line 274). -/
def cityAvgOf (dict : List (String × DStats)) : ℚ :=
  if dict.isEmpty then 0 else (cityTotalOf dict : ℚ) / (dict.length : ℚ)

/-- Derive one result item (`src/openstadt/api/routes.py` lines 276-292):
`equityScore = round(total / city_avg * 100)` when `city_avg > 0` else `0`;
`density = round(total / areaKm2, 1)` when `areaKm2` is truthy and `> 0`,
else null. -/
def mkItem (avg : ℚ) (s : DStats) : DItem :=
  { toDStats := s,
    equityScore := if 0 < avg then pyRound ((s.total : ℚ) / avg * 100) else 0,
    density :=
      match s.areaKm2 with
      | some a => if 0 < a then some (pyRound1 ((s.total : ℚ) / a)) else none
      | none => none }

/-- `district_analytics` (`src/openstadt/api/routes.py` lines 230-304) on the
in-memory data: the `items` list sorted ascending by equity score, and the
summary `(totalPois, totalDistricts, cityAverage)`. -/
def district_analytics (ds : List District) (ls : List Layer) (ps : List POI) :
    List DItem × ℕ × ℕ × ℚ :=
  let dict := districtStatsDict ds ls ps
  let avg := cityAvgOf dict
  let items := sortByKey (fun r => r.equityScore)
    (dict.map (fun kv => mkItem avg kv.2))
  (items, cityTotalOf dict, items.length, pyRound1 avg)

/-- Degrees to radians, `math.radians`. -/
noncomputable def radians (d : ℚ) : ℝ := (d : ℝ) * Real.pi / 180

open Classical in
/-- `math.atan2(y, x)`: the standard two-argument arctangent. -/
noncomputable def atan2 (y x : ℝ) : ℝ :=
  if 0 < x then Real.arctan (y / x)
  else if x < 0 ∧ 0 ≤ y then Real.arctan (y / x) + Real.pi
  else if x < 0 ∧ y < 0 then Real.arctan (y / x) - Real.pi
  else if x = 0 ∧ 0 < y then Real.pi / 2
  else if x = 0 ∧ y < 0 then -(Real.pi / 2)
  else 0

/-- `_haversine_distance(lat1, lng1, lat2, lng2)`
(`src/openstadt/api/routes.py` lines 425-439): great-circle distance in
meters with Earth radius `6371000`, via
`a = sin²(Δφ/2) + cos φ1 · cos φ2 · sin²(Δλ/2)` and
`c = 2·atan2(√a, √(1-a))`. -/
noncomputable def haversine_distance (lat1 lng1 lat2 lng2 : ℚ) : ℝ :=
  let R : ℝ := 6371000
  let phi1 := radians lat1
  let phi2 := radians lat2
  let delta_phi := radians (lat2 - lat1)
  let delta_lambda := radians (lng2 - lng1)
  let a := Real.sin (delta_phi / 2) ^ 2 +
    Real.cos phi1 * Real.cos phi2 * Real.sin (delta_lambda / 2) ^ 2
  let c := 2 * atan2 (Real.sqrt a) (Real.sqrt (1 - a))
  R * c

open Classical in
/-- The inner loop of `coverage_analysis`
(`src/openstadt/api/routes.py` lines 353-358): scan the target-layer POIs and
stop at the first one within `radius_m` meters. -/
noncomputable def poiIsCovered (radius : ℤ) (p : POI) : List POI → Bool
  | [] => false
  | t :: ts =>
      if haversine_distance p.lat p.lng t.lat t.lng ≤ (radius : ℝ) then true
      else poiIsCovered radius p ts

/-- The `district_coverage` accumulation of `coverage_analysis`
(`src/openstadt/api/routes.py` lines 343-358): per district label
(`"Unbekannt"` when absent), total POI count and count of POIs within radius
of some target-layer POI. -/
noncomputable def districtCoverage (radius : ℤ) (targets : List POI)
    (pois : List POI) : List (String × ℕ × ℕ) :=
  pois.foldl (fun acc p =>
    let dname := p.district.getD "Unbekannt"
    let acc1 := if acc.any (fun kv => kv.1 == dname) then acc
      else acc ++ [(dname, (0, 0))]
    let acc2 := dictUpdate acc1 dname (fun s => (s.1 + 1, s.2))
    if poiIsCovered radius p targets then
      dictUpdate acc2 dname (fun s => (s.1, s.2 + 1))
    else acc2) []

/-- One element of the `coverage_stats` list
(`src/openstadt/api/routes.py` lines 364-369). -/
structure CovGroup where
  district : String
  totalPois : ℕ
  coveredPois : ℕ
  coveragePct : ℤ
deriving DecidableEq, Repr

/-- The per-district part of `coverage_analysis`
(`src/openstadt/api/routes.py` lines 343-371): coverage percentage
`round(covered / total * 100)` when `total > 0` else `0`, sorted ascending by
percentage. -/
noncomputable def coverage_analysis (radius : ℤ) (targets : List POI)
    (pois : List POI) : List CovGroup :=
  sortByKey (fun g => g.coveragePct)
    ((districtCoverage radius targets pois).map (fun kv =>
      { district := kv.1, totalPois := kv.2.1, coveredPois := kv.2.2,
        coveragePct :=
          if 0 < kv.2.1 then pyRound ((kv.2.2 : ℚ) / (kv.2.1 : ℚ) * 100)
          else 0 }))

/-- A single test layer (id 1, slug `"l"`). -/
def exLayer : Layer := { id := 1, slug := "l", name := "L" }

/-- District `"A"` with no geometry (analytics does not read geometry). -/
def exDistrictA : District :=
  { name := "A", slug := "a", geometry := none, population := none,
    area_km2 := none }

/-- District `"B"` with no geometry. -/
def exDistrictB : District :=
  { name := "B", slug := "b", geometry := none, population := none,
    area_km2 := none }

/-- A POI at the origin labelled with district `dn` and layer 1. -/
def mkPoi (i : ℕ) (dn : String) : POI :=
  { id := i, city_id := 1, layer_id := 1, name := "p", lat := 0, lng := 0,
    address := none, district := some dn, attributes := [] }

/-- 10 POIs in district `"A"` and 30 in district `"B"`. -/
def exPois : List POI :=
  List.replicate 10 (mkPoi 1 "A") ++ List.replicate 30 (mkPoi 2 "B")

example :
    ((district_analytics [exDistrictA, exDistrictB] [exLayer] exPois).1.map
      (fun r => r.equityScore)) = [50, 150] := by decide

example : pyRound (1/2) = 0 := by decide
example : pyRound (3/2) = 2 := by decide
example : pyRound 50 = 50 := by decide
example : pipRing 0 0 [(-1, -1), (1, -1), (1, 1), (-1, 1)] = true := by decide
example : pipRing 5 5 [(-1, -1), (1, -1), (1, 1), (-1, 1)] = false := by decide

/-! ## Helper lemmas -/

theorem rayLoop_parity (x y : ℚ) (l : List ((ℚ × ℚ) × (ℚ × ℚ))) (b : Bool) :
    rayLoop x y l b =
      (b != decide
        ((l.countP (fun e => crossing x y e.1.1 e.1.2 e.2.1 e.2.2)) % 2 = 1)) := by
  induction l generalizing b with
  | nil => simp [rayLoop]
  | cons e t ih =>
    simp only [rayLoop, List.countP_cons, ih]
    by_cases h : crossing x y e.1.1 e.1.2 e.2.1 e.2.2 = true
    · cases b <;>
        rcases Nat.mod_two_eq_zero_or_one
          (t.countP (fun e => crossing x y e.1.1 e.1.2 e.2.1 e.2.2)) with h2 | h2 <;>
        simp [h, h2, Nat.add_mod]
    · simp [h]

theorem find?_first {α : Type} (p : α → Bool) (l : List α) :
    ∀ (i : ℕ) (hi : i < l.length),
      p (l.get ⟨i, hi⟩) = true →
      (∀ j (hj : j < l.length), j < i → p (l.get ⟨j, hj⟩) = false) →
      l.find? p = some (l.get ⟨i, hi⟩) := by
  induction l with
  | nil => intro i hi; simp at hi
  | cons a t ih =>
    intro i hi hp hmin
    cases i with
    | zero => simp only [List.get] at hp ⊢; simp [List.find?_cons, hp]
    | succ i =>
      have ha : p a = false := hmin 0 (by simp) (Nat.succ_pos i)
      have hi' : i < t.length := by simpa using Nat.lt_of_succ_lt_succ hi
      have hp' : p (t.get ⟨i, hi'⟩) = true := by simpa using hp
      have hmin' : ∀ j (hj : j < t.length), j < i → p (t.get ⟨j, hj⟩) = false := by
        intro j hj hji
        have h2 := hmin (j + 1) (by simpa using Nat.succ_lt_succ hj)
          (Nat.succ_lt_succ hji)
        simpa using h2
      have ht := ih i hi' hp' hmin'
      simp [List.find?_cons, ha, ht]

theorem assignPoi_fields (ds : List District) (p : POI) :
    (assignPoi ds p).id = p.id ∧ (assignPoi ds p).city_id = p.city_id ∧
    (assignPoi ds p).layer_id = p.layer_id ∧ (assignPoi ds p).name = p.name ∧
    (assignPoi ds p).lat = p.lat ∧ (assignPoi ds p).lng = p.lng ∧
    (assignPoi ds p).address = p.address ∧
    (assignPoi ds p).attributes = p.attributes := by
  unfold assignPoi
  cases ds.find? (fun d => point_in_polygon p.lng p.lat d.geometry) <;>
    exact ⟨rfl, rfl, rfl, rfl, rfl, rfl, rfl, rfl⟩

theorem assignPoi_idem (ds : List District) (p : POI) :
    assignPoi ds (assignPoi ds p) = assignPoi ds p := by
  cases h : ds.find? (fun d => point_in_polygon p.lng p.lat d.geometry) with
  | none =>
    have h1 : assignPoi ds p = p := by simp [assignPoi, h]
    rw [h1]
    exact h1
  | some d =>
    have h1 : assignPoi ds p = { p with district := some d.name } := by
      simp [assignPoi, h]
    rw [h1]
    have hlng : ({ p with district := some d.name } : POI).lng = p.lng := rfl
    have hlat : ({ p with district := some d.name } : POI).lat = p.lat := rfl
    unfold assignPoi
    simp only [hlng, hlat, h]

theorem insertByKey_perm {α : Type} (key : α → ℤ) (x : α) (l : List α) :
    (insertByKey key x l).Perm (x :: l) := by
  induction l with
  | nil => exact List.Perm.refl _
  | cons y ys ih =>
    simp only [insertByKey]
    by_cases h : key x < key y
    · rw [if_pos h]
    · rw [if_neg h]
      exact (ih.cons y).trans (List.Perm.swap x y ys)

theorem sortByKey_perm {α : Type} (key : α → ℤ) (l : List α) :
    (sortByKey key l).Perm l := by
  induction l with
  | nil => exact List.Perm.refl _
  | cons x xs ih =>
    exact (insertByKey_perm key x (sortByKey key xs)).trans (ih.cons x)

theorem mem_sortByKey {α : Type} (key : α → ℤ) (l : List α) (a : α) :
    a ∈ sortByKey key l ↔ a ∈ l :=
  (sortByKey_perm key l).mem_iff

theorem mem_dictSet {V : Type} (l : List (String × V)) (k : String) (v : V) :
    ∀ kv ∈ dictSet l k v, kv ∈ l ∨ kv = (k, v) := by
  intro kv hkv
  unfold dictSet at hkv
  by_cases h : l.any (fun kv => kv.1 == k)
  · rw [if_pos h] at hkv
    obtain ⟨kv0, h0, heq⟩ := List.mem_map.mp hkv
    by_cases h1 : (kv0.1 == k) = true
    · right; rw [if_pos (by simpa using h1)] at heq; exact heq.symm
    · left; rw [if_neg (by simpa using h1)] at heq; rwa [← heq]
  · rw [if_neg h] at hkv
    rcases List.mem_append.mp hkv with h2 | h2
    · exact Or.inl h2
    · exact Or.inr (by simpa using h2)

theorem dictSet_key_exists {V : Type} (l : List (String × V)) (k : String)
    (v : V) : ∃ kv ∈ dictSet l k v, kv.1 = k := by
  unfold dictSet
  by_cases h : l.any (fun kv => kv.1 == k)
  · rw [if_pos h]
    obtain ⟨kv0, h0, hk⟩ := List.any_eq_true.mp h
    exact ⟨(k, v), List.mem_map.mpr ⟨kv0, h0, by rw [if_pos hk]⟩, rfl⟩
  · rw [if_neg h]
    exact ⟨(k, v), List.mem_append_right _ (by simp), rfl⟩

theorem dictSet_preserves_key {V : Type} (l : List (String × V))
    (k : String) (v : V) (k0 : String) (h : ∃ kv ∈ l, kv.1 = k0) :
    ∃ kv ∈ dictSet l k v, kv.1 = k0 := by
  obtain ⟨kv0, h0, hk⟩ := h
  unfold dictSet
  by_cases ha : l.any (fun kv => kv.1 == k)
  · rw [if_pos ha]
    by_cases he : (kv0.1 == k) = true
    · refine ⟨(k, v), List.mem_map.mpr ⟨kv0, h0, by rw [if_pos he]⟩, ?_⟩
      have : kv0.1 = k := by simpa using he
      rw [← hk, this]
    · exact ⟨kv0, List.mem_map.mpr ⟨kv0, h0, by rw [if_neg he]⟩, hk⟩
  · rw [if_neg ha]
    exact ⟨kv0, List.mem_append_left _ h0, hk⟩

theorem mem_dictUpdate {V : Type} (l : List (String × V)) (k : String)
    (f : V → V) : ∀ kv ∈ dictUpdate l k f,
      ∃ kv0 ∈ l, kv.1 = kv0.1 ∧ (kv.2 = kv0.2 ∨ kv.2 = f kv0.2) := by
  intro kv hkv
  obtain ⟨kv0, h0, heq⟩ := List.mem_map.mp hkv
  by_cases h1 : (kv0.1 == k) = true
  · rw [if_pos h1] at heq
    exact ⟨kv0, h0, by rw [← heq], Or.inr (by rw [← heq])⟩
  · rw [if_neg h1] at heq
    exact ⟨kv0, h0, by rw [← heq], Or.inl (by rw [← heq])⟩

theorem dictUpdate_preserves_key {V : Type} (l : List (String × V))
    (k : String) (f : V → V) (k0 : String) (h : ∃ kv ∈ l, kv.1 = k0) :
    ∃ kv ∈ dictUpdate l k f, kv.1 = k0 := by
  obtain ⟨kv0, h0, hk⟩ := h
  by_cases h1 : (kv0.1 == k) = true
  · exact ⟨(kv0.1, f kv0.2),
      List.mem_map.mpr ⟨kv0, h0, by rw [if_pos h1]⟩, hk⟩
  · exact ⟨kv0, List.mem_map.mpr ⟨kv0, h0, by rw [if_neg h1]⟩, hk⟩

theorem foldl_inv {α β : Type} (Inv : β → Prop) (step : β → α → β) :
    ∀ (l : List α) (acc : β), Inv acc →
      (∀ b a, a ∈ l → Inv b → Inv (step b a)) → Inv (l.foldl step acc)
  | [], _, h, _ => h
  | a :: t, acc, h, hs =>
    foldl_inv Inv step t (step acc a) (hs acc a (by simp) h)
      (fun b a' ha' hb => hs b a' (by simp [ha']) hb)

theorem assignPoi_district (ds : List District) (p : POI) :
    (assignPoi ds p).district = p.district ∨
      ∃ d ∈ ds, (assignPoi ds p).district = some d.name := by
  cases h : ds.find? (fun d => point_in_polygon p.lng p.lat d.geometry) with
  | none => left; simp [assignPoi, h]
  | some d =>
    right; exact ⟨d, List.mem_of_find?_eq_some h, by simp [assignPoi, h]⟩

/-! ## Concrete fixtures for witnesses and counterexamples -/

/-- A POI at the origin with no district label. -/
def pNoDistrict : POI :=
  { id := 9, city_id := 1, layer_id := 1, name := "q", lat := 0, lng := 0,
    address := none, district := none, attributes := [] }

/-- A square polygon away from the origin, over `[10,11]²`. -/
def sqFar : Geometry :=
  { type := "Polygon", coordinates := [[(10, 10), (11, 10), (11, 11), (10, 11)]] }

/-- A district whose polygon does not contain the origin. -/
def dFar : District :=
  { name := "Far", slug := "far", geometry := some sqFar, population := none,
    area_km2 := none }

/-- A square polygon containing the origin, over `[-1,1]²`. -/
def sqOrigin : Geometry :=
  { type := "Polygon",
    coordinates := [[(-1, -1), (1, -1), (1, 1), (-1, 1)]] }

/-- A district whose polygon contains the origin. -/
def dIn : District :=
  { name := "In", slug := "in-d", geometry := some sqOrigin, population := none,
    area_km2 := none }

/-- A district with no geometry and no stored area. -/
def dG2 : District :=
  { name := "G2", slug := "g2", geometry := none, population := none,
    area_km2 := none }

/-- A district whose stored geometry is a MultiPolygon. -/
def dMP : District :=
  { name := "M", slug := "m",
    geometry := some { type := "MultiPolygon",
                       coordinates := [[(0, 0), (10, 0), (0, 10)]] },
    population := none, area_km2 := none }

/-! ## Claims -/

/-- C2: `PointInPolygon` on a ring is the ray-casting test: an edge `i→j`
counts as a crossing exactly when `(y_i > y) != (y_j > y)` and
`x < (x_j - x_i)*(y - y_i)/(y_j - y_i) + x_i`; the result is true iff the
crossing count is odd, and a ring with fewer than 3 vertices yields false. -/
theorem pipRing_ray_casting (x y : ℚ) (coords : List (ℚ × ℚ)) :
    pipRing x y coords = true ↔
      (3 ≤ coords.length ∧
        ((edgePairs coords).countP (fun e =>
          (decide (e.1.2 > y) != decide (e.2.2 > y)) &&
          decide (x < (e.2.1 - e.1.1) * (y - e.1.2) / (e.2.2 - e.1.2) + e.1.1)))
          % 2 = 1) := by
  unfold pipRing
  by_cases h : coords.length < 3
  · simp only [if_pos h]
    constructor
    · intro hh; exact absurd hh (by simp)
    · intro hh; omega
  · rw [if_neg h, rayLoop_parity]
    have h3 : 3 ≤ coords.length := Nat.le_of_not_lt h
    constructor
    · intro hh
      refine ⟨h3, ?_⟩
      have : (decide (((edgePairs coords).countP
          (fun e => crossing x y e.1.1 e.1.2 e.2.1 e.2.2)) % 2 = 1)) = true := by
        cases hd : (decide (((edgePairs coords).countP
            (fun e => crossing x y e.1.1 e.1.2 e.2.1 e.2.2)) % 2 = 1)) with
        | false => rw [hd] at hh; exact absurd hh (by simp)
        | true => rfl
      exact of_decide_eq_true this
    · intro ⟨_, hh⟩
      have : (decide (((edgePairs coords).countP
          (fun e => crossing x y e.1.1 e.1.2 e.2.1 e.2.2)) % 2 = 1)) = true :=
        decide_eq_true hh
      rw [this]
      rfl

/-- C9: in the ray-casting crossing test, the division by `y_j - y_i` sits
under the guard `(y_i > y) != (y_j > y)`, and that guard forces
`y_j - y_i ≠ 0`, so the source never divides by zero. -/
theorem crossing_guard_nonzero_divisor :
    (∀ x y xi yi xj yj : ℚ, crossing x y xi yi xj yj =
      ((decide (yi > y) != decide (yj > y)) &&
        decide (x < (xj - xi) * (y - yi) / (yj - yi) + xi))) ∧
    (∀ y yi yj : ℚ,
      (decide (yi > y) != decide (yj > y)) = true → yj - yi ≠ 0) := by
  refine ⟨fun _ _ _ _ _ _ => rfl, ?_⟩
  intro y yi yj h hz
  have hyy : yj = yi := by
    have := sub_eq_zero.mp hz
    linarith
  rw [hyy] at h
  simp at h

theorem crossing_guard_nonzero_divisor_witness :
    (decide ((-1 : ℚ) > 0) != decide ((1 : ℚ) > 0)) = true ∧
      (1 : ℚ) - (-1) ≠ 0 :=
  ⟨by decide, crossing_guard_nonzero_divisor.2 0 (-1) 1 (by decide)⟩

/-- C10: `PointInPolygon` is false whenever the geometry is absent or its
GeoJSON type is not `"Polygon"`, so a district storing a MultiPolygon (or any
non-Polygon type) is never the first match for any point during assignment. -/
theorem non_polygon_never_matches :
    (∀ x y : ℚ, point_in_polygon x y none = false) ∧
    (∀ (x y : ℚ) (g : Geometry), g.type ≠ "Polygon" →
      point_in_polygon x y (some g) = false) ∧
    (∀ (districts : List District) (p : POI) (d : District) (g : Geometry),
      d.geometry = some g → g.type ≠ "Polygon" →
      (candidates districts).find?
        (fun d' => point_in_polygon p.lng p.lat d'.geometry) ≠ some d) := by
  have h2 : ∀ (x y : ℚ) (g : Geometry), g.type ≠ "Polygon" →
      point_in_polygon x y (some g) = false := by
    intro x y g hg
    simp [point_in_polygon, hg]
  refine ⟨fun _ _ => rfl, h2, ?_⟩
  intro ds p d g hgeom hg hfind
  have hp := List.find?_some hfind
  rw [hgeom, h2 p.lng p.lat g hg] at hp
  exact absurd hp (by simp)

theorem non_polygon_never_matches_witness :
    point_in_polygon 0 0 dMP.geometry = false ∧
    (candidates [dMP]).find?
      (fun d' => point_in_polygon pNoDistrict.lng pNoDistrict.lat
        d'.geometry) ≠ some dMP := by
  constructor
  · exact non_polygon_never_matches.2.1 0 0 _ (by decide)
  · exact non_polygon_never_matches.2.2 [dMP] pNoDistrict dMP _ rfl (by decide)

/-- C3: for a point contained in some candidate polygon, the first candidate
district (in given order) whose polygon contains it wins, and the point's
label becomes that district's display name; later districts are never
considered. -/
theorem assign_first_match_wins (districts : List District) (p : POI)
    (i : ℕ) (hi : i < (candidates districts).length)
    (hc : point_in_polygon p.lng p.lat
      ((candidates districts).get ⟨i, hi⟩).geometry = true)
    (hmin : ∀ j (hj : j < (candidates districts).length), j < i →
      point_in_polygon p.lng p.lat
        ((candidates districts).get ⟨j, hj⟩).geometry = false) :
    (assignPoi (candidates districts) p).district =
      some ((candidates districts).get ⟨i, hi⟩).name := by
  have hf := find?_first (fun d => point_in_polygon p.lng p.lat d.geometry)
    (candidates districts) i hi hc hmin
  simp [assignPoi, hf]

theorem assign_first_match_wins_witness :
    (assignPoi (candidates [dFar, dIn]) pNoDistrict).district = some "In" := by
  have h := assign_first_match_wins [dFar, dIn] pNoDistrict 1 (by decide)
    (by decide)
    (fun j hj hji => by
      have hj0 : j = 0 := by omega
      subst hj0
      exact (by decide : point_in_polygon pNoDistrict.lng pNoDistrict.lat
        dFar.geometry = false))
  exact h.trans rfl

/-- C6: `AssignAll` is idempotent — running the assignment twice over the
same districts produces the same labelled points as running it once. -/
theorem assign_districts_idempotent (districts : List District)
    (pois : List POI) :
    (assign_districts districts (assign_districts districts pois).1).1 =
      (assign_districts districts pois).1 := by
  show ((pois.map (assignPoi (candidates districts))).map
      (assignPoi (candidates districts))) =
    pois.map (assignPoi (candidates districts))
  rw [List.map_map]
  have hfun : assignPoi (candidates districts) ∘ assignPoi (candidates districts)
      = assignPoi (candidates districts) :=
    funext (fun p => assignPoi_idem _ p)
  rw [hfun]

/-- C7: `AssignAll` mutates only the `district` field of each point: the
output has the same length, every other field of every point is unchanged,
and the `district` field is either the old label or the display name of one
candidate district (the district inputs themselves are never written). -/
theorem assign_districts_frame (districts : List District) (pois : List POI)
    (i : ℕ) (hi : i < pois.length) :
    ((assign_districts districts pois).1.length = pois.length) ∧
    ∀ hi' : i < (assign_districts districts pois).1.length,
      ((assign_districts districts pois).1.get ⟨i, hi'⟩).id =
          (pois.get ⟨i, hi⟩).id ∧
      ((assign_districts districts pois).1.get ⟨i, hi'⟩).city_id =
          (pois.get ⟨i, hi⟩).city_id ∧
      ((assign_districts districts pois).1.get ⟨i, hi'⟩).layer_id =
          (pois.get ⟨i, hi⟩).layer_id ∧
      ((assign_districts districts pois).1.get ⟨i, hi'⟩).name =
          (pois.get ⟨i, hi⟩).name ∧
      ((assign_districts districts pois).1.get ⟨i, hi'⟩).lat =
          (pois.get ⟨i, hi⟩).lat ∧
      ((assign_districts districts pois).1.get ⟨i, hi'⟩).lng =
          (pois.get ⟨i, hi⟩).lng ∧
      ((assign_districts districts pois).1.get ⟨i, hi'⟩).address =
          (pois.get ⟨i, hi⟩).address ∧
      ((assign_districts districts pois).1.get ⟨i, hi'⟩).attributes =
          (pois.get ⟨i, hi⟩).attributes ∧
      (((assign_districts districts pois).1.get ⟨i, hi'⟩).district =
          (pois.get ⟨i, hi⟩).district ∨
        ∃ d ∈ candidates districts,
          ((assign_districts districts pois).1.get ⟨i, hi'⟩).district =
            some d.name) := by
  have hlen : (assign_districts districts pois).1.length = pois.length := by
    show (pois.map (assignPoi (candidates districts))).length = pois.length
    exact List.length_map _ _
  refine ⟨hlen, ?_⟩
  intro hi'
  have hget : (assign_districts districts pois).1.get ⟨i, hi'⟩ =
      assignPoi (candidates districts) (pois.get ⟨i, hi⟩) := by
    show (pois.map (assignPoi (candidates districts))).get ⟨i, hi'⟩ =
      assignPoi (candidates districts) (pois.get ⟨i, hi⟩)
    simp [List.getElem_map]
  rw [hget]
  obtain ⟨h1, h2, h3, h4, h5, h6, h7, h8⟩ :=
    assignPoi_fields (candidates districts) (pois.get ⟨i, hi⟩)
  exact ⟨h1, h2, h3, h4, h5, h6, h7, h8,
    assignPoi_district (candidates districts) (pois.get ⟨i, hi⟩)⟩

theorem assign_districts_frame_witness :
    ((assign_districts [dIn] [pNoDistrict]).1.length = [pNoDistrict].length) ∧
    ((assign_districts [dIn] [pNoDistrict]).1.get
        ⟨0, by decide⟩).lat = pNoDistrict.lat := by
  obtain ⟨hlen, hfields⟩ := assign_districts_frame [dIn] [pNoDistrict] 0
    (by decide)
  obtain ⟨_, _, _, _, hlat, _⟩ := hfields (by decide)
  exact ⟨hlen, hlat⟩

/-- C1 counterexample: the code has no nearest-centroid fallback.  With a
single candidate district `dFar` (trivially the nearest by centroid) and a
point contained in no candidate polygon, `assign_districts` leaves the
point's label `none` — not `some "Far"` as the claim requires — and its
assigned counter stays `0`; there is no fallback counter at all. -/
theorem assign_no_fallback_counterexample :
    point_in_polygon pNoDistrict.lng pNoDistrict.lat dFar.geometry = false ∧
    (assign_districts [dFar] [pNoDistrict]).1.map (fun q => q.district) =
      [none] ∧
    (assign_districts [dFar] [pNoDistrict]).2 = 0 ∧
    (none : Option String) ≠ some dFar.name := by
  exact ⟨by decide, by decide, by decide, by decide⟩

/-- C1 (amended): for every point that lies inside no candidate district
polygon, `AssignAll` leaves the point entirely unchanged (its district label
keeps its previous value) and does not count it as assigned; the code has no
nearest-centroid fallback and no fallback counter. -/
theorem assign_no_containing_polygon (districts : List District) (p : POI)
    (h : ∀ d ∈ candidates districts,
      point_in_polygon p.lng p.lat d.geometry = false) :
    assignPoi (candidates districts) p = p ∧
    (assign_districts districts [p]).1 = [p] ∧
    (assign_districts districts [p]).2 = 0 := by
  have hf : (candidates districts).find?
      (fun d => point_in_polygon p.lng p.lat d.geometry) = none :=
    List.find?_eq_none.mpr (fun d hd => by simp [h d hd])
  have h1 : assignPoi (candidates districts) p = p := by simp [assignPoi, hf]
  refine ⟨h1, ?_, ?_⟩
  · show [assignPoi (candidates districts) p] = [p]
    rw [h1]
  · show List.countP (fun q => ((candidates districts).find?
      (fun d => point_in_polygon q.lng q.lat d.geometry)).isSome) [p] = 0
    simp [List.countP_cons, hf]

theorem assign_no_containing_polygon_witness :
    assignPoi (candidates [dFar]) pNoDistrict = pNoDistrict ∧
    (assign_districts [dFar] [pNoDistrict]).1 = [pNoDistrict] ∧
    (assign_districts [dFar] [pNoDistrict]).2 = 0 :=
  assign_no_containing_polygon [dFar] pNoDistrict (by decide)

/-- C4: every result item of `DistrictStats` carries
`equityScore = round(districtTotal / cityAverage * 100)` with
`cityAverage = cityTotalPoints / numberOfDistrictGroups` and an explicit `0`
when the average is `0`; on two districts with totals 10 and 30 the scores
are 50 and 150. -/
theorem equity_score_formula :
    (∀ (ds : List District) (ls : List Layer) (ps : List POI) r,
      r ∈ (district_analytics ds ls ps).1 →
      r.equityScore =
        if 0 < cityAvgOf (districtStatsDict ds ls ps) then
          pyRound ((r.total : ℚ) /
            cityAvgOf (districtStatsDict ds ls ps) * 100)
        else 0) ∧
    (∀ (ds : List District) (ls : List Layer) (ps : List POI),
      cityAvgOf (districtStatsDict ds ls ps) =
        if (districtStatsDict ds ls ps).length = 0 then 0
        else (cityTotalOf (districtStatsDict ds ls ps) : ℚ) /
          ((districtStatsDict ds ls ps).length : ℚ)) ∧
    ((district_analytics [exDistrictA, exDistrictB] [exLayer] exPois).1.map
      (fun r => r.equityScore) = [50, 150]) := by
  refine ⟨?_, ?_, by decide⟩
  · intro ds ls ps r hr
    have hdef : (district_analytics ds ls ps).1 =
        sortByKey (fun r => r.equityScore)
          ((districtStatsDict ds ls ps).map
            (fun kv => mkItem (cityAvgOf (districtStatsDict ds ls ps)) kv.2)) :=
      rfl
    rw [hdef] at hr
    obtain ⟨kv, _, hkvr⟩ := List.mem_map.mp ((mem_sortByKey _ _ _).mp hr)
    rw [← hkvr]
    rfl
  · intro ds ls ps
    cases h : districtStatsDict ds ls ps <;> simp [cityAvgOf, h]

theorem equity_score_formula_witness :
    (((district_analytics [exDistrictA, exDistrictB] [exLayer] exPois).1.headD
        (mkItem 0 (unknownSeed [] "x"))).equityScore =
      if 0 < cityAvgOf
          (districtStatsDict [exDistrictA, exDistrictB] [exLayer] exPois) then
        pyRound
          ((((district_analytics [exDistrictA, exDistrictB] [exLayer]
                exPois).1.headD (mkItem 0 (unknownSeed [] "x"))).total : ℚ) /
            cityAvgOf (districtStatsDict [exDistrictA, exDistrictB] [exLayer]
              exPois) * 100)
      else 0) :=
  equity_score_formula.1 [exDistrictA, exDistrictB] [exLayer] exPois _
    (by decide)

theorem statAcc1_prop (ls : List Layer) (k : String) (P : DStats → Prop)
    (hPu : ∀ dn, dn = k → P (unknownSeed ls dn))
    (acc : List (String × DStats)) (dname : String)
    (hacc : ∀ kv ∈ acc, kv.1 = k → P kv.2) :
    ∀ kv ∈ statAcc1 ls acc dname, kv.1 = k → P kv.2 := by
  intro kv hkv hk
  unfold statAcc1 at hkv
  by_cases hany : acc.any (fun kv => kv.1 == dname)
  · rw [if_pos hany] at hkv
    exact hacc kv hkv hk
  · rw [if_neg hany] at hkv
    rcases List.mem_append.mp hkv with h | h
    · exact hacc kv h hk
    · have he : kv = (dname, unknownSeed ls dname) := by simpa using h
      rw [he] at hk ⊢
      exact hPu dname hk

theorem statStep_prop (ls : List Layer) (k : String) (P : DStats → Prop)
    (hPu : ∀ dn, dn = k → P (unknownSeed ls dn))
    (hPb : ∀ s slug, P s → P (bumpLayer slug s))
    (acc : List (String × DStats)) (p : POI)
    (hacc : ∀ kv ∈ acc, kv.1 = k → P kv.2) :
    ∀ kv ∈ statStep ls acc p, kv.1 = k → P kv.2 := by
  intro kv hkv hk
  unfold statStep at hkv
  have hacc1 := statAcc1_prop ls k P hPu acc (p.district.getD "Unbekannt") hacc
  cases hf : ls.find? (fun l => l.id == p.layer_id) with
  | none =>
    rw [hf] at hkv
    exact hacc1 kv hkv hk
  | some l =>
    rw [hf] at hkv
    obtain ⟨kv0, h0, hk0, hv0⟩ := mem_dictUpdate _ _ _ kv hkv
    have hP0 : P kv0.2 := hacc1 kv0 h0 (by rw [← hk0, hk])
    rcases hv0 with hv | hv
    · rw [hv]; exact hP0
    · rw [hv]; exact hPb kv0.2 l.slug hP0

theorem statAcc1_preserves_key (ls : List Layer)
    (acc : List (String × DStats)) (dname k : String)
    (h : ∃ kv ∈ acc, kv.1 = k) :
    ∃ kv ∈ statAcc1 ls acc dname, kv.1 = k := by
  unfold statAcc1
  by_cases hany : acc.any (fun kv => kv.1 == dname)
  · rw [if_pos hany]; exact h
  · rw [if_neg hany]
    obtain ⟨kv, hkv, hk⟩ := h
    exact ⟨kv, List.mem_append_left _ hkv, hk⟩

theorem statStep_preserves_key (ls : List Layer)
    (acc : List (String × DStats)) (p : POI) (k : String)
    (h : ∃ kv ∈ acc, kv.1 = k) :
    ∃ kv ∈ statStep ls acc p, kv.1 = k := by
  unfold statStep
  have h1 := statAcc1_preserves_key ls acc (p.district.getD "Unbekannt") k h
  cases hf : ls.find? (fun l => l.id == p.layer_id) with
  | none => exact h1
  | some l => exact dictUpdate_preserves_key _ _ _ k h1

theorem seed_dict_prop (ls : List Layer) (k : String) (dl : List District)
    (hdl : ∀ d' ∈ dl, d'.name = k → d'.area_km2 = none) :
    ∀ kv ∈ dl.foldl (fun acc d => dictSet acc d.name (seedStats ls d)) [],
      kv.1 = k → kv.2.areaKm2 = none ∧ kv.2.name = k := by
  refine foldl_inv
    (fun acc => ∀ kv : String × DStats, kv ∈ acc → kv.1 = k →
      kv.2.areaKm2 = none ∧ kv.2.name = k)
    _ dl [] (by intro kv hkv; exact absurd hkv (List.not_mem_nil kv)) ?_
  intro acc d hd hacc kv hkv hk
  rcases mem_dictSet acc d.name (seedStats ls d) kv hkv with h | h
  · exact hacc kv h hk
  · rw [h] at hk ⊢
    have hdk : d.name = k := hk
    exact ⟨by simpa [seedStats] using hdl d hd hdk, hdk⟩

theorem seed_dict_key (ls : List Layer) (k : String) :
    ∀ (dl : List District) (acc : List (String × DStats)),
      ((∃ d' ∈ dl, d'.name = k) ∨ (∃ kv ∈ acc, kv.1 = k)) →
      ∃ kv ∈ dl.foldl (fun acc d => dictSet acc d.name (seedStats ls d)) acc,
        kv.1 = k := by
  intro dl
  induction dl with
  | nil =>
    intro acc h
    rcases h with ⟨d', hd', _⟩ | h
    · exact absurd hd' (List.not_mem_nil d')
    · exact h
  | cons a t ih =>
    intro acc h
    show ∃ kv ∈ t.foldl _ (dictSet acc a.name (seedStats ls a)), kv.1 = k
    rcases h with ⟨d', hd', hk⟩ | h
    · rcases List.mem_cons.mp hd' with he | hd't
      · refine ih _ (Or.inr ?_)
        rw [← hk, he]
        exact dictSet_key_exists acc a.name (seedStats ls a)
      · exact ih _ (Or.inl ⟨d', hd't, hk⟩)
    · exact ih _ (Or.inr (dictSet_preserves_key acc a.name _ k h))

/-- C8 counterexample: a district record with no geometry but a stored
`area_km2` of 2 km², holding one POI, yields `density = 0.5` — not `null` —
because `district_analytics` derives density from `area_km2` alone and
never reads the geometry. -/
theorem geometryless_density_counterexample :
    District.geometry
        { name := "G", slug := "g", geometry := none, population := none,
          area_km2 := some 2 } = none ∧
    ((district_analytics
        [{ name := "G", slug := "g", geometry := none, population := none,
           area_km2 := some 2 }] [exLayer] [mkPoi 3 "G"]).1.map
      (fun r => (r.name, r.density))) = [("G", some (1/2))] ∧
    ((district_analytics
        [{ name := "G", slug := "g", geometry := none, population := none,
           area_km2 := some 2 }] [exLayer] [mkPoi 3 "G"]).1.countP
      (fun r => r.density == (none : Option ℚ))) = 0 :=
  ⟨rfl, by decide, by decide⟩

/-- C8 (amended): a district record with no geometry is excluded from the
candidate set, so it never participates in any point-in-polygon match; it
still appears as a group in the `DistrictStats` output, and when its
`area_km2` is unset (and no same-named district record carries an area) that
group's density is null — density is derived from `area_km2`, not from
geometry. -/
theorem geometryless_district_in_stats :
    (∀ (districts : List District) (d : District), d ∈ districts →
      d.geometry = none → d ∉ candidates districts) ∧
    (∀ (ds : List District) (ls : List Layer) (ps : List POI) (d : District),
      d ∈ ds → d.geometry = none → d.area_km2 = none →
      (∀ d' ∈ ds, d'.name = d.name → d'.area_km2 = none) →
      0 < (district_analytics ds ls ps).1.countP
        (fun r => r.name == d.name && r.density == (none : Option ℚ))) := by
  constructor
  · intro districts d _ hgeom hc
    have h2 := (List.mem_filter.mp hc).2
    rw [hgeom] at h2
    exact absurd h2 (by simp)
  · intro ds ls ps d hd hgeom harea hnames
    have hseedP := seed_dict_prop ls d.name ds hnames
    have hseedK := seed_dict_key ls d.name ds [] (Or.inl ⟨d, hd, rfl⟩)
    have hfinalP : ∀ kv ∈ districtStatsDict ds ls ps, kv.1 = d.name →
        kv.2.areaKm2 = none ∧ kv.2.name = d.name := by
      refine foldl_inv (fun acc => ∀ kv : String × DStats, kv ∈ acc →
        kv.1 = d.name → kv.2.areaKm2 = none ∧ kv.2.name = d.name)
        (statStep ls) ps _ hseedP ?_
      intro acc p _ hacc
      exact statStep_prop ls d.name
        (fun v => v.areaKm2 = none ∧ v.name = d.name)
        (fun dn hdn => ⟨rfl, hdn⟩)
        (fun s slug hs => ⟨hs.1, hs.2⟩) acc p hacc
    have hfinalK : ∃ kv ∈ districtStatsDict ds ls ps, kv.1 = d.name := by
      refine foldl_inv
        (fun acc => ∃ kv : String × DStats, kv ∈ acc ∧ kv.1 = d.name)
        (statStep ls) ps _ ?_ ?_
      · obtain ⟨kv, hkv, hk⟩ := hseedK
        exact ⟨kv, hkv, hk⟩
      · intro acc p _ hacc
        obtain ⟨kv, hkv, hk⟩ := hacc
        obtain ⟨kv2, hkv2, hk2⟩ :=
          statStep_preserves_key ls acc p d.name ⟨kv, hkv, hk⟩
        exact ⟨kv2, hkv2, hk2⟩
    obtain ⟨kv, hkv, hk⟩ := hfinalK
    obtain ⟨hka, hkn⟩ := hfinalP kv hkv hk
    rw [List.countP_pos_iff]
    refine ⟨mkItem (cityAvgOf (districtStatsDict ds ls ps)) kv.2, ?_, ?_⟩
    · have hmem : mkItem (cityAvgOf (districtStatsDict ds ls ps)) kv.2 ∈
          (districtStatsDict ds ls ps).map
            (fun kv => mkItem (cityAvgOf (districtStatsDict ds ls ps)) kv.2) :=
        List.mem_map.mpr ⟨kv, hkv, rfl⟩
      exact (mem_sortByKey _ _ _).mpr hmem
    · have hname : (mkItem (cityAvgOf (districtStatsDict ds ls ps)) kv.2).name
          = d.name := hkn
      have hdens : (mkItem (cityAvgOf (districtStatsDict ds ls ps))
          kv.2).density = none := by
        simp [mkItem, hka]
      rw [Bool.and_eq_true, beq_iff_eq, beq_iff_eq]
      exact ⟨hname, hdens⟩

theorem geometryless_district_in_stats_witness :
    dG2 ∉ candidates [dG2] ∧
    0 < (district_analytics [dG2] [] []).1.countP
      (fun r => r.name == dG2.name && r.density == (none : Option ℚ)) :=
  ⟨geometryless_district_in_stats.1 [dG2] dG2 (by simp) rfl,
   geometryless_district_in_stats.2 [dG2] [] [] dG2 (by simp) rfl rfl
     (by intro d' hd' _; simp at hd'; rw [hd']; rfl)⟩

/-- A default coverage group used only as a `headD` fallback. -/
def cov0 : CovGroup :=
  { district := "x", totalPois := 0, coveredPois := 0, coveragePct := 0 }

/-- C5: in `CoverageAnalysis` a point counts as covered iff some
target-layer point lies within the radius by haversine great-circle distance
(the loop's first-match `break` is equivalent to that existence test), and
every district group reports `coveragePct = round(covered/total*100)`, with
`0` when the group's total is `0`. -/
theorem coverage_covered_iff :
    (∀ (radius : ℤ) (p : POI) (ts : List POI),
      poiIsCovered radius p ts = true ↔
        ∃ t ∈ ts,
          haversine_distance p.lat p.lng t.lat t.lng ≤ (radius : ℝ)) ∧
    (∀ (radius : ℤ) (targets pois : List POI) (g : CovGroup),
      g ∈ coverage_analysis radius targets pois →
      g.coveragePct =
        if 0 < g.totalPois then
          pyRound ((g.coveredPois : ℚ) / (g.totalPois : ℚ) * 100)
        else 0) := by
  constructor
  · intro radius p ts
    induction ts with
    | nil => simp [poiIsCovered]
    | cons t ts ih =>
      by_cases h : haversine_distance p.lat p.lng t.lat t.lng ≤ (radius : ℝ)
      · simp [poiIsCovered, h]
      · simp [poiIsCovered, h, ih]
  · intro radius targets pois g hg
    have hdef : coverage_analysis radius targets pois =
        sortByKey (fun g => g.coveragePct)
          ((districtCoverage radius targets pois).map (fun kv =>
            { district := kv.1, totalPois := kv.2.1, coveredPois := kv.2.2,
              coveragePct :=
                if 0 < kv.2.1 then
                  pyRound ((kv.2.2 : ℚ) / (kv.2.1 : ℚ) * 100)
                else 0 })) := rfl
    rw [hdef] at hg
    obtain ⟨kv, _, hkvg⟩ := List.mem_map.mp ((mem_sortByKey _ _ _).mp hg)
    rw [← hkvg]

theorem coverage_covered_iff_witness :
    ((coverage_analysis 0 [] [mkPoi 1 "A"]).headD cov0).coveragePct =
      if 0 < ((coverage_analysis 0 [] [mkPoi 1 "A"]).headD cov0).totalPois
      then
        pyRound
          ((((coverage_analysis 0 [] [mkPoi 1 "A"]).headD
              cov0).coveredPois : ℚ) /
            (((coverage_analysis 0 [] [mkPoi 1 "A"]).headD
              cov0).totalPois : ℚ) * 100)
      else 0 :=
  coverage_covered_iff.2 0 [] [mkPoi 1 "A"] _ (by decide)
